import Mathlib

/-!
Shallow embedding of the `virtualization-rs` library (a typed Rust layer over
the macOS Virtualization framework) and proofs about its observable behavior.

Sources embedded here: `src/base.rs`, `src/virtualization/boot_loader.rs`,
`src/virtualization/storage_device.rs`, `src/virtualization/virtual_machine.rs`
and the reference caller `examples/simplevm.rs`.

Modeling conventions:
* Foreign (Objective-C) objects are modeled by the arguments the Rust code
  passes to their initializers and property setters — that is exactly the
  information the Rust layer controls.
* A possibly-nil `NSError` pointer is `Option NSErrorObj`; sending `code` to
  the nil pointer returns `0` (Objective-C nil-messaging semantics).
* A foreign call that may populate an error slot is a parameter of type
  `NSError → α × NSError`: it receives the slot contents the Rust code
  initialized and returns the primary result together with the slot contents
  after the call.
* Rust typestate builders (type parameters `()` vs. a filled type) are modeled
  value-level: a field of the Rust builder that is either `()` or `T` becomes
  an `Option T`, and the set of `impl` blocks providing `build` becomes a
  function describing on which field combinations `build` exists.
* Rust `&str` text values are modeled as lists of Unicode scalar values
  (`List Nat`, each member a valid scalar); the UTF-8 byte encoding performed
  when crossing the foreign boundary is modeled explicitly.
-/

/-! ## Foreign error objects (`src/base.rs`, `NSError`) -/

/-- A non-nil foreign `NSError` object, observed through its numeric code
(`NSError::code` in `src/base.rs`). The four description strings and the
user-info dictionary are diagnostics only and are not needed by any claim. -/
structure NSErrorObj where
  code : Int
deriving DecidableEq, Repr

/-- The Rust `NSError` wrapper holds a possibly-nil pointer to a foreign error
object (`pub struct NSError(pub StrongPtr)` in `src/base.rs`); `none` is the
nil pointer. -/
abbrev NSError := Option NSErrorObj

/-- `NSError::nil()` (`src/base.rs` lines 183-188): wraps the NIL pointer. -/
def NSError.nil' : NSError := none

/-- `NSError::code` (`src/base.rs` lines 190-192) sends `code` to the wrapped
pointer. Sending a message to nil returns zero, so the nil error reports
code `0`; a real object reports its own code. -/
def NSError.codeVal : NSError → Int
  | none => 0
  | some e => e.code

/-! ## Foreign URLs (`src/base.rs`, `NSURL`)

The Rust code builds `NSURL` objects by composing three foreign constructors;
the value of such an object is modeled syntactically by which constructors the
Rust code applied, which is exactly what each claim about URL handling is
about. -/

/-- A foreign `NSURL` object, described by the constructor calls that built it
(`src/base.rs`, `impl NSURL`). -/
inductive NSURL where
  /-- `NSURL::file_url_with_path(path, is_directory)` (lines 106-115). -/
  | fileURLWithPath (path : String) (isDirectory : Bool)
  /-- `NSURL::url_with_string(url)` (lines 98-104). -/
  | urlWithString (url : String)
  /-- `NSURL::absolute_url(&self)` (lines 122-127). -/
  | absoluteURL (u : NSURL)
deriving DecidableEq, Repr

/-- `NSURL::file_url_with_path` from `src/base.rs`. -/
def NSURL.file_url_with_path (path : String) (is_directory : Bool) : NSURL :=
  NSURL.fileURLWithPath path is_directory

/-- `NSURL::url_with_string` from `src/base.rs`. -/
def NSURL.url_with_string (url : String) : NSURL :=
  NSURL.urlWithString url

/-- `NSURL::absolute_url` from `src/base.rs`. -/
def NSURL.absolute_url (u : NSURL) : NSURL :=
  NSURL.absoluteURL u

/-- Whether the outermost operation applied to a URL was `absolute_url`,
i.e. whether the URL was normalized to absolute form before use. -/
def NSURL.appliedAbsoluteURL : NSURL → Bool
  | NSURL.absoluteURL _ => true
  | _ => false

/-! ## UTF-8 text crossing the foreign boundary (`src/base.rs`, `NSString`)

`NSString::new` hands the UTF-8 bytes of a Rust `&str` to
`initWithBytes:length:encoding:`; `NSString::as_str` reads the bytes back via
`UTF8String` / `lengthOfBytesUsingEncoding:` and decodes them with
`str::from_utf8(bytes).unwrap()`. A text value is a list of Unicode scalar
values; the encoder below is standard UTF-8 and the decoder mirrors the
validation `str::from_utf8` performs (continuation-byte shape, no overlong
forms, no surrogates, maximum `0x10FFFF`), returning `none` where the Rust
code would panic in `unwrap`. -/

/-- UTF-8 encoding of one Unicode scalar value. -/
def utf8EncodeChar (c : Nat) : List Nat :=
  if c < 0x80 then [c]
  else if c < 0x800 then [0xC0 + c / 64, 0x80 + c % 64]
  else if c < 0x10000 then [0xE0 + c / 4096, 0x80 + c / 64 % 64, 0x80 + c % 64]
  else [0xF0 + c / 262144, 0x80 + c / 4096 % 64, 0x80 + c / 64 % 64, 0x80 + c % 64]

/-- UTF-8 encoding of a text value (list of Unicode scalar values). -/
def utf8Encode : List Nat → List Nat
  | [] => []
  | c :: cs => utf8EncodeChar c ++ utf8Encode cs

/-- Decode one UTF-8-encoded scalar from the front of a byte list, returning
the scalar and the remaining bytes, or `none` on invalid input. The checks
are the ones `str::from_utf8` performs: lead-byte range, continuation bytes
in `0x80..0xBF`, no overlong encodings, no surrogates, at most `0x10FFFF`. -/
def utf8DecodeOne : List Nat → Option (Nat × List Nat)
  | [] => none
  | b0 :: rest =>
    if b0 < 0x80 then some (b0, rest)
    else if b0 < 0xC2 then none
    else if b0 < 0xE0 then
      match rest with
      | b1 :: rest2 =>
        if 0x80 ≤ b1 ∧ b1 < 0xC0 then
          some ((b0 - 0xC0) * 64 + (b1 - 0x80), rest2)
        else none
      | [] => none
    else if b0 < 0xF0 then
      match rest with
      | b1 :: b2 :: rest3 =>
        let v := (b0 - 0xE0) * 4096 + (b1 - 0x80) * 64 + (b2 - 0x80)
        if 0x80 ≤ b1 ∧ b1 < 0xC0 ∧ 0x80 ≤ b2 ∧ b2 < 0xC0 ∧ 0x800 ≤ v ∧
            (v < 0xD800 ∨ 0xDFFF < v) then
          some (v, rest3)
        else none
      | _ => none
    else if b0 < 0xF5 then
      match rest with
      | b1 :: b2 :: b3 :: rest4 =>
        let v := (b0 - 0xF0) * 262144 + (b1 - 0x80) * 4096 +
          (b2 - 0x80) * 64 + (b3 - 0x80)
        if 0x80 ≤ b1 ∧ b1 < 0xC0 ∧ 0x80 ≤ b2 ∧ b2 < 0xC0 ∧ 0x80 ≤ b3 ∧
            b3 < 0xC0 ∧ 0x10000 ≤ v ∧ v < 0x110000 then
          some (v, rest4)
        else none
      | _ => none
    else none

/-- A successful single-scalar decode consumes at least one byte. -/
theorem utf8DecodeOne_length {l : List Nat} {v : Nat} {rest : List Nat}
    (h : utf8DecodeOne l = some (v, rest)) : rest.length < l.length := by
  match l with
  | [] => simp [utf8DecodeOne] at h
  | b0 :: tail =>
    simp only [utf8DecodeOne] at h
    split at h
    · simp at h
      simp [← h.2, List.length_cons, Nat.lt_succ_self]
    · split at h
      · exact absurd h (by simp)
      · split at h
        · match tail with
          | [] => simp at h
          | b1 :: rest2 =>
            simp only at h
            split at h
            · simp at h
              simp [← h.2, List.length_cons]
              omega
            · simp at h
        · split at h
          · match tail with
            | [] => simp at h
            | [b1] => simp at h
            | b1 :: b2 :: rest3 =>
              simp only at h
              split at h
              · simp at h
                simp [← h.2, List.length_cons]
                omega
              · simp at h
          · split at h
            · match tail with
              | [] => simp at h
              | [b1] => simp at h
              | [b1, b2] => simp at h
              | b1 :: b2 :: b3 :: rest4 =>
                simp only at h
                split at h
                · simp at h
                  simp [← h.2, List.length_cons]
                  omega
                · simp at h
            · simp at h

/-- Decode a whole UTF-8 byte list into a text value, or `none` where
`str::from_utf8` would reject the bytes. -/
def utf8Decode (l : List Nat) : Option (List Nat) :=
  if _h1 : l = [] then some []
  else
    match h : utf8DecodeOne l with
    | none => none
    | some (v, rest) =>
      have : rest.length < l.length := utf8DecodeOne_length h
      match utf8Decode rest with
      | none => none
      | some vs => some (v :: vs)
termination_by l.length

/-- The UTF-8 encoding of a scalar is never empty. -/
theorem utf8EncodeChar_ne_nil (c : Nat) : utf8EncodeChar c ≠ [] := by
  unfold utf8EncodeChar
  split
  · simp
  · split
    · simp
    · split
      · simp
      · simp

/-- Decoding recovers the scalar a valid-scalar encoding starts with and
leaves the trailing bytes untouched. -/
theorem utf8DecodeOne_encodeChar (c : Nat) (h : Nat.isValidChar c)
    (rest : List Nat) : utf8DecodeOne (utf8EncodeChar c ++ rest) = some (c, rest) := by
  have hlt : c < 0x110000 := by
    rcases h with h | ⟨_, h⟩
    · omega
    · exact h
  have hsur : c < 0xD800 ∨ 0xDFFF < c := by
    rcases h with h | ⟨h, _⟩
    · exact Or.inl h
    · exact Or.inr h
  rcases Nat.lt_or_ge c 0x80 with h1 | h1
  · have henc : utf8EncodeChar c = [c] := by
      unfold utf8EncodeChar
      rw [if_pos h1]
    rw [henc]
    simp only [List.cons_append, List.nil_append, utf8DecodeOne]
    rw [if_pos h1]
  · rcases Nat.lt_or_ge c 0x800 with h2 | h2
    · have henc : utf8EncodeChar c = [0xC0 + c / 64, 0x80 + c % 64] := by
        unfold utf8EncodeChar
        rw [if_neg (by omega), if_pos h2]
      rw [henc]
      simp only [List.cons_append, List.nil_append, utf8DecodeOne]
      rw [if_neg (by omega), if_neg (by omega), if_pos (by omega),
        if_pos (by constructor <;> omega)]
      simp only [Option.some.injEq, Prod.mk.injEq]
      constructor
      · omega
      · trivial
    · rcases Nat.lt_or_ge c 0x10000 with h3 | h3
      · have henc : utf8EncodeChar c =
            [0xE0 + c / 4096, 0x80 + c / 64 % 64, 0x80 + c % 64] := by
          unfold utf8EncodeChar
          rw [if_neg (by omega), if_neg (by omega), if_pos h3]
        rw [henc]
        simp only [List.cons_append, List.nil_append, utf8DecodeOne]
        rw [if_neg (by omega), if_neg (by omega), if_neg (by omega),
          if_pos (by omega)]
        rw [if_pos (by refine ⟨by omega, by omega, by omega, by omega, by omega, ?_⟩; omega)]
        simp only [Option.some.injEq, Prod.mk.injEq]
        constructor
        · omega
        · trivial
      · have henc : utf8EncodeChar c =
            [0xF0 + c / 262144, 0x80 + c / 4096 % 64, 0x80 + c / 64 % 64,
              0x80 + c % 64] := by
          unfold utf8EncodeChar
          rw [if_neg (by omega), if_neg (by omega), if_neg (by omega)]
        rw [henc]
        simp only [List.cons_append, List.nil_append, utf8DecodeOne]
        rw [if_neg (by omega), if_neg (by omega), if_neg (by omega),
          if_neg (by omega), if_pos (by omega)]
        rw [if_pos (by refine ⟨by omega, by omega, by omega, by omega, by omega, by omega, by omega, ?_⟩; omega)]
        simp only [Option.some.injEq, Prod.mk.injEq]
        constructor
        · omega
        · trivial

/-- Decoding a valid-scalar encoding followed by arbitrary bytes decodes the
scalar and then the remaining bytes. -/
theorem utf8Decode_append (c : Nat) (h : Nat.isValidChar c) (l : List Nat) :
    utf8Decode (utf8EncodeChar c ++ l) =
      Option.map (fun vs => c :: vs) (utf8Decode l) := by
  rw [utf8Decode]
  have hne : utf8EncodeChar c ++ l ≠ [] := by
    intro hcon
    exact utf8EncodeChar_ne_nil c (List.append_eq_nil.mp hcon).1
  rw [dif_neg hne]
  have hdec := utf8DecodeOne_encodeChar c h l
  split
  · rename_i heq
    rw [hdec] at heq
    exact absurd heq (by simp)
  · rename_i v rest heq
    rw [hdec] at heq
    simp only [Option.some.injEq, Prod.mk.injEq] at heq
    obtain ⟨hv, hr⟩ := heq
    subst hv
    subst hr
    cases hd : utf8Decode l with
    | none => simp [hd]
    | some vs => simp [hd]


/-- The Rust `NSString` wrapper (`src/base.rs` lines 59-87), modeled by the
byte content of the foreign string object. -/
structure NSString where
  bytes : List Nat
deriving DecidableEq, Repr

/-- `NSString::new(string)` (`src/base.rs` lines 62-70): sends
`initWithBytes:length:encoding:` with the UTF-8 bytes of the Rust string,
so the foreign object holds exactly those bytes. The argument is the text
value as a list of Unicode scalar values. -/
def NSString.new (string : List Nat) : NSString :=
  NSString.mk (utf8Encode string)

/-- `NSString::len` (`src/base.rs` lines 72-74): `lengthOfBytesUsingEncoding:`
with the UTF-8 encoding, i.e. the byte count. -/
def NSString.len (s : NSString) : Nat :=
  s.bytes.length

/-- `NSString::as_str` (`src/base.rs` lines 76-86): reads `len` bytes from
`UTF8String` and decodes them with `str::from_utf8(bytes).unwrap()`; `none`
models the panic on invalid UTF-8. -/
def NSString.as_str (s : NSString) : Option (List Nat) :=
  utf8Decode s.bytes

/-! ## Linux boot loader (`src/virtualization/boot_loader.rs`) -/

/-- The foreign `VZLinuxBootLoader` object, modeled by the three properties
the constructor sets on it (`setKernelURL`, `setInitialRamdiskURL`,
`setCommandLine`; `boot_loader.rs` lines 89-105). -/
structure VZLinuxBootLoader where
  kernelURL : NSURL
  initialRamdiskURL : NSURL
  commandLine : String
deriving DecidableEq, Repr

/-- `VZLinuxBootLoader::new` (`boot_loader.rs` lines 90-104): both path
arguments go through `file_url_with_path(_, false)` and then `absolute_url()`;
the command line becomes an `NSString` property. -/
def VZLinuxBootLoader.new (kernel_url initial_ramdisk_url command_line : String) :
    VZLinuxBootLoader :=
  VZLinuxBootLoader.mk
    ((NSURL.file_url_with_path kernel_url false).absolute_url)
    ((NSURL.file_url_with_path initial_ramdisk_url false).absolute_url)
    command_line

/-- The typestate builder `VZLinuxBootLoaderBuilder<KernelURL, InitialRamdiskURL,
CommandLine>` (`boot_loader.rs` lines 21-84). Each Rust type parameter is `()`
until the corresponding setter runs and `String` afterwards; here each field is
`none` until set. -/
structure VZLinuxBootLoaderBuilder where
  kernel_url : Option String
  initial_ramdisk_url : Option String
  command_line : Option String
deriving DecidableEq, Repr

/-- `VZLinuxBootLoaderBuilder::new()` (lines 27-35): all three fields `()`. -/
def VZLinuxBootLoaderBuilder.new : VZLinuxBootLoaderBuilder :=
  VZLinuxBootLoaderBuilder.mk none none none

/-- Setter `kernel_url` (lines 40-49): fills that field, keeps the others. -/
def VZLinuxBootLoaderBuilder.set_kernel_url (b : VZLinuxBootLoaderBuilder)
    (kernel_url : String) : VZLinuxBootLoaderBuilder :=
  VZLinuxBootLoaderBuilder.mk (some kernel_url) b.initial_ramdisk_url b.command_line

/-- Setter `initial_ramdisk_url` (lines 51-60). -/
def VZLinuxBootLoaderBuilder.set_initial_ramdisk_url (b : VZLinuxBootLoaderBuilder)
    (initial_ramdisk_url : String) : VZLinuxBootLoaderBuilder :=
  VZLinuxBootLoaderBuilder.mk b.kernel_url (some initial_ramdisk_url) b.command_line

/-- Setter `command_line` (lines 62-71). -/
def VZLinuxBootLoaderBuilder.set_command_line (b : VZLinuxBootLoaderBuilder)
    (command_line : String) : VZLinuxBootLoaderBuilder :=
  VZLinuxBootLoaderBuilder.mk b.kernel_url b.initial_ramdisk_url (some command_line)

/-- The sole `build` impl is on
`VZLinuxBootLoaderBuilder<String, String, String>` (lines 74-84): `build` is a
legal call exactly in the state where all three fields have been supplied. -/
def VZLinuxBootLoaderBuilder.buildDefined (b : VZLinuxBootLoaderBuilder) : Bool :=
  b.kernel_url.isSome && b.initial_ramdisk_url.isSome && b.command_line.isSome

/-- `build()` on the fully-populated builder (lines 74-84), with the field
values it forwards to `VZLinuxBootLoader::new`. -/
def VZLinuxBootLoaderBuilder.build (b : VZLinuxBootLoaderBuilder)
    (hk : b.kernel_url.isSome) (hi : b.initial_ramdisk_url.isSome)
    (hc : b.command_line.isSome) : VZLinuxBootLoader :=
  VZLinuxBootLoader.new (b.kernel_url.get hk) (b.initial_ramdisk_url.get hi)
    (b.command_line.get hc)

/-- One call to a `VZLinuxBootLoaderBuilder` setter, for reasoning about
arbitrary call sequences. -/
inductive LinuxBuilderCall where
  | kernelUrlCall (s : String)
  | initialRamdiskUrlCall (s : String)
  | commandLineCall (s : String)
deriving DecidableEq, Repr

/-- Apply one setter call to a builder. -/
def applyLinuxBuilderCall (b : VZLinuxBootLoaderBuilder) :
    LinuxBuilderCall → VZLinuxBootLoaderBuilder
  | LinuxBuilderCall.kernelUrlCall s => b.set_kernel_url s
  | LinuxBuilderCall.initialRamdiskUrlCall s => b.set_initial_ramdisk_url s
  | LinuxBuilderCall.commandLineCall s => b.set_command_line s

/-- Apply a sequence of setter calls, first call first. -/
def applyLinuxBuilderCalls (b : VZLinuxBootLoaderBuilder)
    (calls : List LinuxBuilderCall) : VZLinuxBootLoaderBuilder :=
  calls.foldl applyLinuxBuilderCall b

/-- Whether a call sequence contains a `kernel_url` call. -/
def hasKernelUrlCall (calls : List LinuxBuilderCall) : Bool :=
  calls.any fun c => match c with
    | LinuxBuilderCall.kernelUrlCall _ => true
    | _ => false

/-- Whether a call sequence contains an `initial_ramdisk_url` call. -/
def hasInitialRamdiskUrlCall (calls : List LinuxBuilderCall) : Bool :=
  calls.any fun c => match c with
    | LinuxBuilderCall.initialRamdiskUrlCall _ => true
    | _ => false

/-- Whether a call sequence contains a `command_line` call. -/
def hasCommandLineCall (calls : List LinuxBuilderCall) : Bool :=
  calls.any fun c => match c with
    | LinuxBuilderCall.commandLineCall _ => true
    | _ => false

/-! ## Disk image storage attachment (`src/virtualization/storage_device.rs`) -/

/-- The foreign `VZDiskImageStorageDeviceAttachment` object, modeled by its
initializer arguments: `initWithURL:readOnly:error:` for the two-argument
variant, `initWithURL:readOnly:cachingMode:synchronizationMode:error:` for the
four-argument variant (modes `none` when the two-argument initializer ran). -/
structure VZDiskImageStorageDeviceAttachment where
  url : NSURL
  readOnly : Bool
  cachingMode : Option Int
  synchronizationMode : Option Int
deriving DecidableEq, Repr

/-- `VZDiskImageStorageDeviceAttachment::new(path, read_only)`
(`storage_device.rs` lines 208-223): builds the URL with
`file_url_with_path(path, false)` (no `absolute_url`), initializes the error
slot to nil, runs the foreign initializer, and fails iff the slot's code is
non-zero afterwards. `foreign` models what the initializer writes into the
error slot it receives. -/
def VZDiskImageStorageDeviceAttachment.new (path : String) (read_only : Bool)
    (foreign : NSError → NSError) :
    Except NSError VZDiskImageStorageDeviceAttachment :=
  let path_nsurl := NSURL.file_url_with_path path false
  let error := NSError.nil'
  let error2 := foreign error
  if NSError.codeVal error2 ≠ 0 then
    Except.error error2
  else
    Except.ok (VZDiskImageStorageDeviceAttachment.mk path_nsurl read_only none none)

/-- `VZDiskImageStorageDeviceAttachment::new_with_mode` (`storage_device.rs`
lines 226-249): like `new` but passing the caching and synchronization modes
to the four-argument initializer. The URL again comes from
`file_url_with_path(path, false)` with no `absolute_url`. -/
def VZDiskImageStorageDeviceAttachment.new_with_mode (path : String)
    (read_only : Bool) (caching_mode : Int) (synchronization_mode : Int)
    (foreign : NSError → NSError) :
    Except NSError VZDiskImageStorageDeviceAttachment :=
  let path_nsurl := NSURL.file_url_with_path path false
  let error := NSError.nil'
  let error2 := foreign error
  if NSError.codeVal error2 ≠ 0 then
    Except.error error2
  else
    Except.ok (VZDiskImageStorageDeviceAttachment.mk path_nsurl read_only
      (some caching_mode) (some synchronization_mode))

/-- The typestate builder `VZDiskImageStorageDeviceAttachmentBuilder<Path,
ReadOnly, CachingMode, SynchronizationMode>` (`storage_device.rs` lines
89-174). `Path` is `()` or `String`; `ReadOnly` is always `bool`;
`CachingMode` and `SynchronizationMode` are `()` or the mode newtypes (their
payloads are `NSInteger`s, modeled as `Int`). -/
structure VZDiskImageStorageDeviceAttachmentBuilder where
  path : Option String
  read_only : Bool
  caching_mode : Option Int
  synchronization_mode : Option Int
deriving DecidableEq, Repr

/-- `VZDiskImageStorageDeviceAttachmentBuilder::new()` (lines 101-110):
no path, `read_only: true`, no caching mode, no synchronization mode. -/
def VZDiskImageStorageDeviceAttachmentBuilder.new :
    VZDiskImageStorageDeviceAttachmentBuilder :=
  VZDiskImageStorageDeviceAttachmentBuilder.mk none true none none

/-- Setter `path` (lines 115-126). -/
def VZDiskImageStorageDeviceAttachmentBuilder.set_path
    (b : VZDiskImageStorageDeviceAttachmentBuilder) (path : String) :
    VZDiskImageStorageDeviceAttachmentBuilder :=
  VZDiskImageStorageDeviceAttachmentBuilder.mk (some path) b.read_only
    b.caching_mode b.synchronization_mode

/-- Setter `read_only` (lines 128-139). -/
def VZDiskImageStorageDeviceAttachmentBuilder.set_read_only
    (b : VZDiskImageStorageDeviceAttachmentBuilder) (read_only : Bool) :
    VZDiskImageStorageDeviceAttachmentBuilder :=
  VZDiskImageStorageDeviceAttachmentBuilder.mk b.path read_only
    b.caching_mode b.synchronization_mode

/-- Setter `caching_mode` (lines 141-156). -/
def VZDiskImageStorageDeviceAttachmentBuilder.set_caching_mode
    (b : VZDiskImageStorageDeviceAttachmentBuilder) (caching_mode : Int) :
    VZDiskImageStorageDeviceAttachmentBuilder :=
  VZDiskImageStorageDeviceAttachmentBuilder.mk b.path b.read_only
    (some caching_mode) b.synchronization_mode

/-- Setter `synchronization_mode` (lines 158-173). -/
def VZDiskImageStorageDeviceAttachmentBuilder.set_synchronization_mode
    (b : VZDiskImageStorageDeviceAttachmentBuilder) (synchronization_mode : Int) :
    VZDiskImageStorageDeviceAttachmentBuilder :=
  VZDiskImageStorageDeviceAttachmentBuilder.mk b.path b.read_only
    b.caching_mode (some synchronization_mode)

/-- Which foreign initializer a `build()` call would run. -/
inductive DiskBuildCall where
  /-- `build` of the impl on `<String, bool, (), ()>` (lines 176-181), which
  calls the two-argument `VZDiskImageStorageDeviceAttachment::new`. -/
  | twoArg (path : String) (read_only : Bool)
  /-- `build` of the impl on `<String, bool, VZDiskImageCachingMode,
  VZDiskImageSynchronizationMode>` (lines 183-202), which calls
  `new_with_mode`. -/
  | fourArg (path : String) (read_only : Bool) (caching_mode : Int)
      (synchronization_mode : Int)
deriving DecidableEq, Repr

/-- On which builder states a `build()` exists, and which initializer it
invokes: the two `impl` blocks (lines 176 and 183) cover exactly the states
`<String, bool, (), ()>` and `<String, bool, CachingMode,
SynchronizationMode>`; every other state has no `build`. -/
def VZDiskImageStorageDeviceAttachmentBuilder.buildCall
    (b : VZDiskImageStorageDeviceAttachmentBuilder) : Option DiskBuildCall :=
  match b.path, b.caching_mode, b.synchronization_mode with
  | some p, none, none => some (DiskBuildCall.twoArg p b.read_only)
  | some p, some c, some s => some (DiskBuildCall.fourArg p b.read_only c s)
  | _, _, _ => none

/-- Run the initializer a `build()` call selects (`storage_device.rs` lines
177-180 and 191-201): the builder's fields are forwarded to `new` or
`new_with_mode` unchanged. -/
def runDiskBuildCall (call : DiskBuildCall) (foreign : NSError → NSError) :
    Except NSError VZDiskImageStorageDeviceAttachment :=
  match call with
  | DiskBuildCall.twoArg p ro => VZDiskImageStorageDeviceAttachment.new p ro foreign
  | DiskBuildCall.fourArg p ro c s =>
      VZDiskImageStorageDeviceAttachment.new_with_mode p ro c s foreign

/-- One call to a disk-attachment-builder setter. -/
inductive DiskBuilderCall where
  | pathCall (s : String)
  | readOnlyCall (v : Bool)
  | cachingModeCall (c : Int)
  | synchronizationModeCall (s : Int)
deriving DecidableEq, Repr

/-- Apply one setter call to a disk-attachment builder. -/
def applyDiskBuilderCall (b : VZDiskImageStorageDeviceAttachmentBuilder) :
    DiskBuilderCall → VZDiskImageStorageDeviceAttachmentBuilder
  | DiskBuilderCall.pathCall s => b.set_path s
  | DiskBuilderCall.readOnlyCall v => b.set_read_only v
  | DiskBuilderCall.cachingModeCall c => b.set_caching_mode c
  | DiskBuilderCall.synchronizationModeCall s => b.set_synchronization_mode s

/-- Apply a sequence of setter calls, first call first. -/
def applyDiskBuilderCalls (b : VZDiskImageStorageDeviceAttachmentBuilder)
    (calls : List DiskBuilderCall) : VZDiskImageStorageDeviceAttachmentBuilder :=
  calls.foldl applyDiskBuilderCall b

/-- Last-writer-wins accumulation of the `read_only` values a call sequence
sets, starting from a given accumulator. -/
def lastReadOnlyFrom (acc : Option Bool) : List DiskBuilderCall → Option Bool
  | [] => acc
  | DiskBuilderCall.readOnlyCall v :: cs => lastReadOnlyFrom (some v) cs
  | _ :: cs => lastReadOnlyFrom acc cs

/-- The last `read_only` value a call sequence sets, if any. -/
def lastReadOnlySet (calls : List DiskBuilderCall) : Option Bool :=
  lastReadOnlyFrom none calls

/-! ## EFI variable store (`src/virtualization/boot_loader.rs` lines 113-201) -/

/-- `VZEFIVariableStoreInitializationOptions` (lines 124-147): a list of
option flags (`allow_overwrite` is `1 << 0`). -/
structure VZEFIVariableStoreInitializationOptions where
  options : List Nat
deriving DecidableEq, Repr

/-- `into_raw` (lines 139-146): fold the option flags together with
bitwise or. -/
def VZEFIVariableStoreInitializationOptions.into_raw
    (o : VZEFIVariableStoreInitializationOptions) : Nat :=
  o.options.foldl (fun acc v => acc ||| v) 0

/-- The foreign `VZEFIVariableStore` object, modeled by its initializer
arguments (`initCreatingVariableStoreAtURL:options:error:`). -/
structure VZEFIVariableStore where
  url : NSURL
  options : Nat
deriving DecidableEq, Repr

/-- `VZEFIVariableStore::create` (`boot_loader.rs` lines 171-193): the URL
comes from `url_with_string`, the error slot is initialized with
`NSError::nil()`, and the call fails iff the slot's code is non-zero after
the foreign initializer ran. -/
def VZEFIVariableStore.create (file_url : String)
    (options : VZEFIVariableStoreInitializationOptions)
    (foreign : NSError → NSError) : Except NSError VZEFIVariableStore :=
  let url := NSURL.url_with_string file_url
  let raw := options.into_raw
  let error := NSError.nil'
  let error2 := foreign error
  if NSError.codeVal error2 ≠ 0 then
    Except.error error2
  else
    Except.ok (VZEFIVariableStore.mk url raw)

/-! ## Virtual machine configuration (`src/virtualization/virtual_machine.rs`) -/

/-- The foreign `VZVirtualMachineConfiguration` object, modeled by the
properties the Rust code has set on it so far (`none` = property setter never
sent). Device lists are kept as lists of opaque foreign handles (`Nat`). -/
structure VZVirtualMachineConfiguration where
  bootLoader : Option VZLinuxBootLoader
  cpuCount : Option Nat
  memorySize : Option Nat
  entropyDevices : Option (List Nat)
  memoryBalloonDevices : Option (List Nat)
  networkDevices : Option (List Nat)
  serialPorts : Option (List Nat)
  socketDevices : Option (List Nat)
  storageDevices : Option (List Nat)
deriving DecidableEq, Repr

/-- `VZVirtualMachineConfiguration::new` (`virtual_machine.rs` lines 113-118):
a fresh foreign object with no property set by the Rust layer. -/
def VZVirtualMachineConfiguration.new : VZVirtualMachineConfiguration :=
  VZVirtualMachineConfiguration.mk none none none none none none none none none

/-- `set_boot_loader` (lines 120-124); the only boot loader modeled here is
the Linux one, which is the one the claims and the reference caller use. -/
def VZVirtualMachineConfiguration.set_boot_loader
    (c : VZVirtualMachineConfiguration) (boot_loader : VZLinuxBootLoader) :
    VZVirtualMachineConfiguration :=
  VZVirtualMachineConfiguration.mk (some boot_loader) c.cpuCount c.memorySize
    c.entropyDevices c.memoryBalloonDevices c.networkDevices c.serialPorts
    c.socketDevices c.storageDevices

/-- `set_cpu_count` (lines 126-130). -/
def VZVirtualMachineConfiguration.set_cpu_count
    (c : VZVirtualMachineConfiguration) (cnt : Nat) :
    VZVirtualMachineConfiguration :=
  VZVirtualMachineConfiguration.mk c.bootLoader (some cnt) c.memorySize
    c.entropyDevices c.memoryBalloonDevices c.networkDevices c.serialPorts
    c.socketDevices c.storageDevices

/-- `set_memory_size` (lines 132-136). -/
def VZVirtualMachineConfiguration.set_memory_size
    (c : VZVirtualMachineConfiguration) (size : Nat) :
    VZVirtualMachineConfiguration :=
  VZVirtualMachineConfiguration.mk c.bootLoader c.cpuCount (some size)
    c.entropyDevices c.memoryBalloonDevices c.networkDevices c.serialPorts
    c.socketDevices c.storageDevices

/-- `set_entropy_devices` (lines 138-144). -/
def VZVirtualMachineConfiguration.set_entropy_devices
    (c : VZVirtualMachineConfiguration) (devices : List Nat) :
    VZVirtualMachineConfiguration :=
  VZVirtualMachineConfiguration.mk c.bootLoader c.cpuCount c.memorySize
    (some devices) c.memoryBalloonDevices c.networkDevices c.serialPorts
    c.socketDevices c.storageDevices

/-- `set_memory_balloon_devices` (lines 146-155). -/
def VZVirtualMachineConfiguration.set_memory_balloon_devices
    (c : VZVirtualMachineConfiguration) (devices : List Nat) :
    VZVirtualMachineConfiguration :=
  VZVirtualMachineConfiguration.mk c.bootLoader c.cpuCount c.memorySize
    c.entropyDevices (some devices) c.networkDevices c.serialPorts
    c.socketDevices c.storageDevices

/-- `set_network_devices` (lines 157-163). -/
def VZVirtualMachineConfiguration.set_network_devices
    (c : VZVirtualMachineConfiguration) (devices : List Nat) :
    VZVirtualMachineConfiguration :=
  VZVirtualMachineConfiguration.mk c.bootLoader c.cpuCount c.memorySize
    c.entropyDevices c.memoryBalloonDevices (some devices) c.serialPorts
    c.socketDevices c.storageDevices

/-- `set_serial_ports` (lines 165-171). -/
def VZVirtualMachineConfiguration.set_serial_ports
    (c : VZVirtualMachineConfiguration) (devices : List Nat) :
    VZVirtualMachineConfiguration :=
  VZVirtualMachineConfiguration.mk c.bootLoader c.cpuCount c.memorySize
    c.entropyDevices c.memoryBalloonDevices c.networkDevices (some devices)
    c.socketDevices c.storageDevices

/-- `set_socket_devices` (lines 173-179). -/
def VZVirtualMachineConfiguration.set_socket_devices
    (c : VZVirtualMachineConfiguration) (devices : List Nat) :
    VZVirtualMachineConfiguration :=
  VZVirtualMachineConfiguration.mk c.bootLoader c.cpuCount c.memorySize
    c.entropyDevices c.memoryBalloonDevices c.networkDevices c.serialPorts
    (some devices) c.storageDevices

/-- `set_storage_devices` (lines 181-187). -/
def VZVirtualMachineConfiguration.set_storage_devices
    (c : VZVirtualMachineConfiguration) (devices : List Nat) :
    VZVirtualMachineConfiguration :=
  VZVirtualMachineConfiguration.mk c.bootLoader c.cpuCount c.memorySize
    c.entropyDevices c.memoryBalloonDevices c.networkDevices c.serialPorts
    c.socketDevices (some devices)

/-- `validate_with_error` (`virtual_machine.rs` lines 189-199): the error slot
starts as a nil `NSError` (`StrongPtr::new(0 as Id)`), the foreign
`validateWithError:` call returns a `BOOL` and may populate the slot, and the
Rust code returns `Err(error)` iff the slot's code is non-zero, else `Ok` of
the returned `BOOL` — which it never inspects. -/
def VZVirtualMachineConfiguration.validate_with_error
    (_c : VZVirtualMachineConfiguration) (foreign : NSError → Bool × NSError) :
    Except NSError Bool :=
  let error : NSError := none
  let result := foreign error
  if NSError.codeVal result.2 ≠ 0 then
    Except.error result.2
  else
    Except.ok result.1

/-- The builder `VZVirtualMachineConfigurationBuilder` (`virtual_machine.rs`
lines 33-107): a plain (non-typestate) wrapper around a configuration under
construction. -/
structure VZVirtualMachineConfigurationBuilder where
  conf : VZVirtualMachineConfiguration
deriving DecidableEq, Repr

/-- `VZVirtualMachineConfigurationBuilder::new()` (lines 38-42). -/
def VZVirtualMachineConfigurationBuilder.new : VZVirtualMachineConfigurationBuilder :=
  VZVirtualMachineConfigurationBuilder.mk VZVirtualMachineConfiguration.new

/-- Builder setter `boot_loader` (lines 44-47). -/
def VZVirtualMachineConfigurationBuilder.set_boot_loader
    (b : VZVirtualMachineConfigurationBuilder) (boot_loader : VZLinuxBootLoader) :
    VZVirtualMachineConfigurationBuilder :=
  VZVirtualMachineConfigurationBuilder.mk (b.conf.set_boot_loader boot_loader)

/-- Builder setter `cpu_count` (lines 49-52). -/
def VZVirtualMachineConfigurationBuilder.set_cpu_count
    (b : VZVirtualMachineConfigurationBuilder) (cpu_count : Nat) :
    VZVirtualMachineConfigurationBuilder :=
  VZVirtualMachineConfigurationBuilder.mk (b.conf.set_cpu_count cpu_count)

/-- Builder setter `memory_size` (lines 54-57). -/
def VZVirtualMachineConfigurationBuilder.set_memory_size
    (b : VZVirtualMachineConfigurationBuilder) (memory_size : Nat) :
    VZVirtualMachineConfigurationBuilder :=
  VZVirtualMachineConfigurationBuilder.mk (b.conf.set_memory_size memory_size)

/-- The single `build` impl (`virtual_machine.rs` lines 104-106) is on the
unparameterized builder type: it exists in every builder state, so, unlike the
typestate builders, calling it is legal no matter which setters ran. -/
def VZVirtualMachineConfigurationBuilder.buildDefined
    (_b : VZVirtualMachineConfigurationBuilder) : Bool :=
  true

/-- `build()` (lines 104-106): returns the configuration as accumulated, with
no completeness check of any kind. -/
def VZVirtualMachineConfigurationBuilder.build
    (b : VZVirtualMachineConfigurationBuilder) : VZVirtualMachineConfiguration :=
  b.conf

/-! ## Virtual machine (`src/virtualization/virtual_machine.rs` lines 202-279) -/

/-- `VZVirtualMachineState` (`virtual_machine.rs` lines 207-232). -/
inductive VZVirtualMachineState where
  | VZVirtualMachineStateStopped
  | VZVirtualMachineStateRunning
  | VZVirtualMachineStatePaused
  | VZVirtualMachineStateError
  | VZVirtualMachineStateStarting
  | VZVirtualMachineStatePausing
  | VZVirtualMachineStateResuming
  | Other
deriving DecidableEq, Repr

/-- The `VZVirtualMachine` wrapper (`virtual_machine.rs` lines 202-241),
modeled by its construction arguments: the configuration and the opaque
dispatch-queue handle. -/
structure VZVirtualMachine where
  conf : VZVirtualMachineConfiguration
  queue : Nat
deriving DecidableEq, Repr

/-- `VZVirtualMachine::new(conf, queue)` (lines 235-241):
`initWithConfiguration:queue:`. -/
def VZVirtualMachine.new (conf : VZVirtualMachineConfiguration) (queue : Nat) :
    VZVirtualMachine :=
  VZVirtualMachine.mk conf queue

/-- `request_stop_with_error` (`virtual_machine.rs` lines 249-257): the error
slot starts nil (`StrongPtr::new(0 as Id)`), the foreign
`requestStopWithError:` returns a `BOOL` and may populate the slot, and the
Rust code returns `Err(error)` iff the slot's code is non-zero, else `Ok` of
the returned `BOOL`. -/
def VZVirtualMachine.request_stop_with_error (_vm : VZVirtualMachine)
    (foreign : NSError → Bool × NSError) : Except NSError Bool :=
  let error : NSError := none
  let result := foreign error
  if NSError.codeVal result.2 ≠ 0 then
    Except.error result.2
  else
    Except.ok result.1

/-- `state` (`virtual_machine.rs` lines 266-278): total mapping from the
`isize` state code the foreign `state` message returns to the state
enumeration; every code outside `0..=6` maps to `Other`. -/
def VZVirtualMachine.state (n : Int) : VZVirtualMachineState :=
  if n = 0 then VZVirtualMachineState.VZVirtualMachineStateStopped
  else if n = 1 then VZVirtualMachineState.VZVirtualMachineStateRunning
  else if n = 2 then VZVirtualMachineState.VZVirtualMachineStatePaused
  else if n = 3 then VZVirtualMachineState.VZVirtualMachineStateError
  else if n = 4 then VZVirtualMachineState.VZVirtualMachineStateStarting
  else if n = 5 then VZVirtualMachineState.VZVirtualMachineStatePausing
  else if n = 6 then VZVirtualMachineState.VZVirtualMachineStateResuming
  else VZVirtualMachineState.Other

/-! ## `NSArray` indexing (`src/base.rs` lines 28-56) -/

/-- The `NSArray<T>` wrapper, modeled by the foreign array's elements. -/
structure NSArray (T : Type) where
  elems : List T

/-- `NSArray::count` (`src/base.rs` lines 46-48): the foreign `count`. -/
def NSArray.count {T : Type} (a : NSArray T) : Nat :=
  a.elems.length

/-- What `NSArray::object_at_index` does with an index. -/
inductive ObjectAtIndexOutcome where
  /-- The `debug_assert!` fired (debug builds only, index out of range). -/
  | assertionPanic
  /-- `objectAtIndex:` was sent to the foreign array with this index. -/
  | foreignCall (index : Nat)
deriving DecidableEq, Repr

/-- `NSArray::object_at_index` (`src/base.rs` lines 51-56):
`debug_assert!(index < self.count())`, then an unconditional
`objectAtIndex: index` message. `debug_assertions` is the Rust compile-time
flag: the assertion only exists when it is set; in release builds every
index, in range or not, is forwarded to the foreign call, and the return
type is `T` — there is no `Option`/`Result` alternative. -/
def NSArray.object_at_index {T : Type} (debug_assertions : Bool)
    (a : NSArray T) (index : Nat) : ObjectAtIndexOutcome :=
  if debug_assertions && !(index < a.count) then
    ObjectAtIndexOutcome.assertionPanic
  else
    ObjectAtIndexOutcome.foreignCall index

/-! ## The reference caller (`examples/simplevm.rs` lines 122-153) -/

/-- How `simplevm.rs` consumes `validate_with_error`'s result (lines 122-153):
`Ok(_)` — the wildcard discards the `BOOL` — proceeds to VM creation and
start; `Err(e)` dumps the error and returns. `true` models the proceed
branch. -/
def simplevmValidateBranch (r : Except NSError Bool) : Bool :=
  match r with
  | Except.ok _ => true
  | Except.error _ => false

/-! ## Helper lemmas -/

/-- Effect of a setter sequence on the Linux builder's field-presence flags:
a field is present afterwards iff it was present before or the sequence
contains its setter. -/
theorem applyLinuxBuilderCalls_buildDefined (calls : List LinuxBuilderCall) :
    ∀ b : VZLinuxBootLoaderBuilder,
      (applyLinuxBuilderCalls b calls).buildDefined =
        ((b.kernel_url.isSome || hasKernelUrlCall calls) &&
          (b.initial_ramdisk_url.isSome || hasInitialRamdiskUrlCall calls) &&
          (b.command_line.isSome || hasCommandLineCall calls)) := by
  induction calls with
  | nil =>
    intro b
    simp [applyLinuxBuilderCalls, hasKernelUrlCall, hasInitialRamdiskUrlCall,
      hasCommandLineCall, VZLinuxBootLoaderBuilder.buildDefined]
  | cons c cs ih =>
    intro b
    cases c with
    | kernelUrlCall s =>
      have step : applyLinuxBuilderCalls b (LinuxBuilderCall.kernelUrlCall s :: cs) =
          applyLinuxBuilderCalls (b.set_kernel_url s) cs := rfl
      rw [step, ih]
      simp [VZLinuxBootLoaderBuilder.set_kernel_url, hasKernelUrlCall,
        hasInitialRamdiskUrlCall, hasCommandLineCall]
    | initialRamdiskUrlCall s =>
      have step : applyLinuxBuilderCalls b (LinuxBuilderCall.initialRamdiskUrlCall s :: cs) =
          applyLinuxBuilderCalls (b.set_initial_ramdisk_url s) cs := rfl
      rw [step, ih]
      simp [VZLinuxBootLoaderBuilder.set_initial_ramdisk_url, hasKernelUrlCall,
        hasInitialRamdiskUrlCall, hasCommandLineCall]
    | commandLineCall s =>
      have step : applyLinuxBuilderCalls b (LinuxBuilderCall.commandLineCall s :: cs) =
          applyLinuxBuilderCalls (b.set_command_line s) cs := rfl
      rw [step, ih]
      simp [VZLinuxBootLoaderBuilder.set_command_line, hasKernelUrlCall,
        hasInitialRamdiskUrlCall, hasCommandLineCall]

/-- Starting the last-writer accumulation from `some v` yields the sequence's
last written value, defaulting to `v`. -/
theorem lastReadOnlyFrom_some (calls : List DiskBuilderCall) :
    ∀ v : Bool, lastReadOnlyFrom (some v) calls =
      some ((lastReadOnlyFrom none calls).getD v) := by
  induction calls with
  | nil => intro v; rfl
  | cons c cs ih =>
    intro v
    cases c with
    | pathCall s => simpa [lastReadOnlyFrom] using ih v
    | readOnlyCall w =>
      simp only [lastReadOnlyFrom]
      rw [ih w]
      simp
    | cachingModeCall m => simpa [lastReadOnlyFrom] using ih v
    | synchronizationModeCall m => simpa [lastReadOnlyFrom] using ih v

/-- The builder's `read_only` field after a setter sequence is the last value
the sequence set, defaulting to the starting builder's value. -/
theorem applyDiskBuilderCalls_read_only (calls : List DiskBuilderCall) :
    ∀ b : VZDiskImageStorageDeviceAttachmentBuilder,
      (applyDiskBuilderCalls b calls).read_only =
        (lastReadOnlySet calls).getD b.read_only := by
  induction calls with
  | nil => intro b; rfl
  | cons c cs ih =>
    intro b
    have step : applyDiskBuilderCalls b (c :: cs) =
        applyDiskBuilderCalls (applyDiskBuilderCall b c) cs := rfl
    rw [step, ih]
    cases c with
    | pathCall s =>
      simp [lastReadOnlySet, lastReadOnlyFrom, applyDiskBuilderCall,
        VZDiskImageStorageDeviceAttachmentBuilder.set_path]
    | readOnlyCall v =>
      simp only [lastReadOnlySet, lastReadOnlyFrom, applyDiskBuilderCall,
        VZDiskImageStorageDeviceAttachmentBuilder.set_read_only]
      rw [lastReadOnlyFrom_some]
      simp
    | cachingModeCall m =>
      simp [lastReadOnlySet, lastReadOnlyFrom, applyDiskBuilderCall,
        VZDiskImageStorageDeviceAttachmentBuilder.set_caching_mode]
    | synchronizationModeCall m =>
      simp [lastReadOnlySet, lastReadOnlyFrom, applyDiskBuilderCall,
        VZDiskImageStorageDeviceAttachmentBuilder.set_synchronization_mode]

/-! ## Claim theorems -/

/-- Claim C1, counterexample: the VM configuration builder is not typestate —
`build()` exists (and succeeds, with no precondition check) on the freshly
created builder, even though none of the mandatory boot loader / CPU count /
memory size setters has been called; the resulting configuration has all
three properties unset. -/
theorem vm_builder_build_callable_without_mandatory_fields :
    VZVirtualMachineConfigurationBuilder.buildDefined
        VZVirtualMachineConfigurationBuilder.new = true ∧
      VZVirtualMachineConfigurationBuilder.new.build.bootLoader = none ∧
      VZVirtualMachineConfigurationBuilder.new.build.cpuCount = none ∧
      VZVirtualMachineConfigurationBuilder.new.build.memorySize = none :=
  ⟨rfl, rfl, rfl, rfl⟩

/-- Claim C1, amended: the Linux boot loader builder's `build()` is callable
after a setter sequence exactly when the sequence supplied all of kernel URL,
initial ramdisk URL and command line; the VM configuration builder's
`build()`, by contrast, is callable in every state whatsoever, with no
type-level or runtime mandatory-field check. -/
theorem builder_mandatory_field_gating :
    (∀ calls : List LinuxBuilderCall,
      (applyLinuxBuilderCalls VZLinuxBootLoaderBuilder.new calls).buildDefined =
        (hasKernelUrlCall calls && hasInitialRamdiskUrlCall calls &&
          hasCommandLineCall calls)) ∧
    (∀ b : VZVirtualMachineConfigurationBuilder, b.buildDefined = true) := by
  constructor
  · intro calls
    rw [applyLinuxBuilderCalls_buildDefined]
    simp [VZLinuxBootLoaderBuilder.new]
  · intro b
    rfl

/-- Claim C5, confirmed: grouped optionality of the disk-attachment builder's
caching and synchronization modes. With the path supplied, `build()` exists
when neither mode has been supplied (running the two-argument initializer) and
when both have (running the four-argument initializer); a builder with exactly
one of the two modes supplied has no `build()` at all, path or no path. -/
theorem disk_build_grouped_optionality :
    (∀ (p : String) (ro : Bool),
      (VZDiskImageStorageDeviceAttachmentBuilder.mk (some p) ro none none).buildCall
        = some (DiskBuildCall.twoArg p ro)) ∧
    (∀ (p : String) (ro : Bool) (c s : Int),
      (VZDiskImageStorageDeviceAttachmentBuilder.mk (some p) ro (some c)
        (some s)).buildCall = some (DiskBuildCall.fourArg p ro c s)) ∧
    (∀ (po : Option String) (ro : Bool) (c : Int),
      (VZDiskImageStorageDeviceAttachmentBuilder.mk po ro (some c) none).buildCall
        = none) ∧
    (∀ (po : Option String) (ro : Bool) (s : Int),
      (VZDiskImageStorageDeviceAttachmentBuilder.mk po ro none (some s)).buildCall
        = none) := by
  refine ⟨fun p ro => rfl, fun p ro c s => rfl, fun po ro c => ?_, fun po ro s => ?_⟩
  · cases po <;> rfl
  · cases po <;> rfl

/-- Claim C6, confirmed: `state` maps codes 0–6 to Stopped, Running, Paused,
Error, Starting, Pausing and Resuming respectively, and every other integer
code to `Other`; it is a total function into the declared enumeration. -/
theorem vm_state_total_mapping :
    VZVirtualMachine.state 0 = VZVirtualMachineState.VZVirtualMachineStateStopped ∧
    VZVirtualMachine.state 1 = VZVirtualMachineState.VZVirtualMachineStateRunning ∧
    VZVirtualMachine.state 2 = VZVirtualMachineState.VZVirtualMachineStatePaused ∧
    VZVirtualMachine.state 3 = VZVirtualMachineState.VZVirtualMachineStateError ∧
    VZVirtualMachine.state 4 = VZVirtualMachineState.VZVirtualMachineStateStarting ∧
    VZVirtualMachine.state 5 = VZVirtualMachineState.VZVirtualMachineStatePausing ∧
    VZVirtualMachine.state 6 = VZVirtualMachineState.VZVirtualMachineStateResuming ∧
    (∀ n : Int, n < 0 ∨ 6 < n → VZVirtualMachine.state n = VZVirtualMachineState.Other) := by
  refine ⟨rfl, rfl, rfl, rfl, rfl, rfl, rfl, ?_⟩
  intro n h
  unfold VZVirtualMachine.state
  rw [if_neg (by omega), if_neg (by omega), if_neg (by omega), if_neg (by omega),
    if_neg (by omega), if_neg (by omega), if_neg (by omega)]

/-- Claim C6, witness: the default arm of the mapping at the concrete
out-of-range codes 7 and -1. -/
theorem vm_state_total_mapping_witness :
    (((7 : Int) < 0 ∨ 6 < (7 : Int)) ∧
      VZVirtualMachine.state 7 = VZVirtualMachineState.Other) ∧
    (((-1 : Int) < 0 ∨ 6 < (-1 : Int)) ∧
      VZVirtualMachine.state (-1) = VZVirtualMachineState.Other) :=
  ⟨⟨by decide, vm_state_total_mapping.2.2.2.2.2.2.2 7 (by decide)⟩,
    ⟨by decide, vm_state_total_mapping.2.2.2.2.2.2.2 (-1) (by decide)⟩⟩

/-- Claim C10, confirmed: in release builds (`debug_assertions = false`),
`object_at_index` forwards every index — in range or out of range — straight
to the foreign `objectAtIndex:` call; only debug builds guard the
`index < count` precondition, by an assertion panic rather than an
`Option`/`Result`. -/
theorem object_at_index_release_unchecked :
    (∀ (T : Type) (a : NSArray T) (i : Nat),
      NSArray.object_at_index false a i = ObjectAtIndexOutcome.foreignCall i) ∧
    (∀ (T : Type) (a : NSArray T) (i : Nat), i < a.count →
      NSArray.object_at_index true a i = ObjectAtIndexOutcome.foreignCall i) ∧
    (∀ (T : Type) (a : NSArray T) (i : Nat), a.count ≤ i →
      NSArray.object_at_index true a i = ObjectAtIndexOutcome.assertionPanic) := by
  refine ⟨fun T a i => rfl, fun T a i h => ?_, fun T a i h => ?_⟩
  · unfold NSArray.object_at_index
    simp [h]
  · unfold NSArray.object_at_index
    simp [Nat.not_lt.mpr h]

/-- Claim C10, witness: the empty array with index 5 — forwarded untouched in
release mode, an assertion panic in debug mode. -/
theorem object_at_index_release_unchecked_witness :
    NSArray.object_at_index false (NSArray.mk ([] : List Nat)) 5 =
        ObjectAtIndexOutcome.foreignCall 5 ∧
      (NSArray.mk ([] : List Nat)).count ≤ 5 ∧
      NSArray.object_at_index true (NSArray.mk ([] : List Nat)) 5 =
        ObjectAtIndexOutcome.assertionPanic :=
  ⟨object_at_index_release_unchecked.1 Nat (NSArray.mk []) 5, by decide,
    object_at_index_release_unchecked.2.2 Nat (NSArray.mk []) 5 (by decide)⟩

/-- The common result shape of every fallible operation: an `if` on the error
slot's code selecting `Err(slot)` or `Ok(primary)`. -/
theorem errIfShape {α : Type} (e : NSError) (x : α) :
    ((if NSError.codeVal e ≠ 0 then Except.error e else Except.ok x) =
        Except.error e ↔ NSError.codeVal e ≠ 0) ∧
    (NSError.codeVal e = 0 →
      (if NSError.codeVal e ≠ 0 then (Except.error e : Except NSError α)
        else Except.ok x) = Except.ok x) := by
  by_cases h : NSError.codeVal e = 0
  · constructor
    · rw [if_neg (by simp [h])]
      simp [h]
    · intro _
      rw [if_neg (by simp [h])]
  · constructor
    · rw [if_pos h]
      simp [h]
    · intro h0
      exact absurd h0 h

/-- Claim C2, confirmed: each fallible foreign operation
(`validate_with_error`, `request_stop_with_error`, the two disk-image
attachment initializers, EFI variable store creation) returns `Err` carrying
the error-slot contents exactly when the slot's code is non-zero after the
foreign call, and otherwise returns `Ok` of the foreign call's primary
result (the returned `BOOL`, or the freshly initialized object). -/
theorem fallible_ops_err_iff_code_nonzero :
    (∀ (c : VZVirtualMachineConfiguration) (f : NSError → Bool × NSError),
      (c.validate_with_error f = Except.error (f NSError.nil').2 ↔
        NSError.codeVal (f NSError.nil').2 ≠ 0) ∧
      (NSError.codeVal (f NSError.nil').2 = 0 →
        c.validate_with_error f = Except.ok (f NSError.nil').1)) ∧
    (∀ (vm : VZVirtualMachine) (f : NSError → Bool × NSError),
      (vm.request_stop_with_error f = Except.error (f NSError.nil').2 ↔
        NSError.codeVal (f NSError.nil').2 ≠ 0) ∧
      (NSError.codeVal (f NSError.nil').2 = 0 →
        vm.request_stop_with_error f = Except.ok (f NSError.nil').1)) ∧
    (∀ (p : String) (ro : Bool) (f : NSError → NSError),
      (VZDiskImageStorageDeviceAttachment.new p ro f =
          Except.error (f NSError.nil') ↔
        NSError.codeVal (f NSError.nil') ≠ 0) ∧
      (NSError.codeVal (f NSError.nil') = 0 →
        VZDiskImageStorageDeviceAttachment.new p ro f = Except.ok
          (VZDiskImageStorageDeviceAttachment.mk
            (NSURL.fileURLWithPath p false) ro none none))) ∧
    (∀ (p : String) (ro : Bool) (cm sm : Int) (f : NSError → NSError),
      (VZDiskImageStorageDeviceAttachment.new_with_mode p ro cm sm f =
          Except.error (f NSError.nil') ↔
        NSError.codeVal (f NSError.nil') ≠ 0) ∧
      (NSError.codeVal (f NSError.nil') = 0 →
        VZDiskImageStorageDeviceAttachment.new_with_mode p ro cm sm f =
          Except.ok (VZDiskImageStorageDeviceAttachment.mk
            (NSURL.fileURLWithPath p false) ro (some cm) (some sm)))) ∧
    (∀ (u : String) (o : VZEFIVariableStoreInitializationOptions)
        (f : NSError → NSError),
      (VZEFIVariableStore.create u o f = Except.error (f NSError.nil') ↔
        NSError.codeVal (f NSError.nil') ≠ 0) ∧
      (NSError.codeVal (f NSError.nil') = 0 →
        VZEFIVariableStore.create u o f = Except.ok
          (VZEFIVariableStore.mk (NSURL.urlWithString u) o.into_raw))) :=
  ⟨fun _c f => errIfShape (f NSError.nil').2 (f NSError.nil').1,
    fun _vm f => errIfShape (f NSError.nil').2 (f NSError.nil').1,
    fun p ro f => errIfShape (f NSError.nil')
      (VZDiskImageStorageDeviceAttachment.mk (NSURL.fileURLWithPath p false)
        ro none none),
    fun p ro cm sm f => errIfShape (f NSError.nil')
      (VZDiskImageStorageDeviceAttachment.mk (NSURL.fileURLWithPath p false)
        ro (some cm) (some sm)),
    fun u o f => errIfShape (f NSError.nil')
      (VZEFIVariableStore.mk (NSURL.urlWithString u) o.into_raw)⟩

/-- Claim C2, witness: a foreign call that succeeds silently (slot left nil)
gives `Ok` of the primary result, and one that populates the slot with code 5
gives `Err` of that object. -/
theorem fallible_ops_err_iff_code_nonzero_witness :
    (NSError.codeVal ((fun (e : NSError) => (true, e)) NSError.nil').2 = 0 ∧
      VZVirtualMachineConfiguration.new.validate_with_error
        (fun e => (true, e)) = Except.ok true) ∧
    (VZDiskImageStorageDeviceAttachment.new "a.img" true
        (fun _ => some (NSErrorObj.mk 5)) =
        Except.error (some (NSErrorObj.mk 5)) ↔
      NSError.codeVal (some (NSErrorObj.mk 5)) ≠ 0) :=
  ⟨⟨rfl, (fallible_ops_err_iff_code_nonzero.1
      VZVirtualMachineConfiguration.new (fun e => (true, e))).2 rfl⟩,
    (fallible_ops_err_iff_code_nonzero.2.2.1 "a.img" true
      (fun _ => some (NSErrorObj.mk 5))).1⟩

/-- Claim C3, counterexample: the disk-image attachment initializer passes
`file_url_with_path(path, false)` to the foreign object directly — the URL it
hands over for the concrete path "disk.img" (with the foreign call leaving
the error slot untouched) is not wrapped in `absolute_url`. -/
theorem disk_attachment_url_not_normalized :
    VZDiskImageStorageDeviceAttachment.new "disk.img" true (fun e => e) =
      Except.ok (VZDiskImageStorageDeviceAttachment.mk
        (NSURL.fileURLWithPath "disk.img" false) true none none) ∧
    NSURL.appliedAbsoluteURL (NSURL.fileURLWithPath "disk.img" false) = false :=
  ⟨rfl, rfl⟩

/-- Claim C3, amended: only the Linux boot loader construction applies
`absolute_url` after `file_url_with_path`; the disk-image attachment
constructions (both initializers) pass the `file_url_with_path` result to the
foreign initializer without normalization. -/
theorem url_normalization_per_constructor :
    (∀ k i c : String,
      (VZLinuxBootLoader.new k i c).kernelURL =
          NSURL.absoluteURL (NSURL.fileURLWithPath k false) ∧
        (VZLinuxBootLoader.new k i c).initialRamdiskURL =
          NSURL.absoluteURL (NSURL.fileURLWithPath i false) ∧
        NSURL.appliedAbsoluteURL (VZLinuxBootLoader.new k i c).kernelURL = true ∧
        NSURL.appliedAbsoluteURL
          (VZLinuxBootLoader.new k i c).initialRamdiskURL = true) ∧
    (∀ (p : String) (ro : Bool) (f : NSError → NSError),
      NSError.codeVal (f NSError.nil') = 0 →
        VZDiskImageStorageDeviceAttachment.new p ro f = Except.ok
            (VZDiskImageStorageDeviceAttachment.mk
              (NSURL.fileURLWithPath p false) ro none none) ∧
          NSURL.appliedAbsoluteURL (NSURL.fileURLWithPath p false) = false) ∧
    (∀ (p : String) (ro : Bool) (cm sm : Int) (f : NSError → NSError),
      NSError.codeVal (f NSError.nil') = 0 →
        VZDiskImageStorageDeviceAttachment.new_with_mode p ro cm sm f =
            Except.ok (VZDiskImageStorageDeviceAttachment.mk
              (NSURL.fileURLWithPath p false) ro (some cm) (some sm)) ∧
          NSURL.appliedAbsoluteURL (NSURL.fileURLWithPath p false) = false) := by
  refine ⟨fun k i c => ⟨rfl, rfl, rfl, rfl⟩, fun p ro f h => ?_, fun p ro cm sm f h => ?_⟩
  · exact ⟨(errIfShape (f NSError.nil')
      (VZDiskImageStorageDeviceAttachment.mk (NSURL.fileURLWithPath p false)
        ro none none)).2 h, rfl⟩
  · exact ⟨(errIfShape (f NSError.nil')
      (VZDiskImageStorageDeviceAttachment.mk (NSURL.fileURLWithPath p false)
        ro (some cm) (some sm))).2 h, rfl⟩

/-- Claim C3 (amended), witness: the amended statement at kernel path
"vmlinuz", ramdisk path "initrd", disk path "root.img" with a silently
successful foreign initializer. -/
theorem url_normalization_per_constructor_witness :
    (VZLinuxBootLoader.new "vmlinuz" "initrd" "console=hvc0").kernelURL =
        NSURL.absoluteURL (NSURL.fileURLWithPath "vmlinuz" false) ∧
      (NSError.codeVal ((fun (e : NSError) => e) NSError.nil') = 0 ∧
        VZDiskImageStorageDeviceAttachment.new "root.img" true (fun e => e) =
          Except.ok (VZDiskImageStorageDeviceAttachment.mk
            (NSURL.fileURLWithPath "root.img" false) true none none)) :=
  ⟨(url_normalization_per_constructor.1 "vmlinuz" "initrd" "console=hvc0").1,
    ⟨rfl, (url_normalization_per_constructor.2.1 "root.img" true
      (fun e => e) rfl).1⟩⟩

/-- Claim C4, confirmed: the disk-attachment builder's `read_only` flag
defaults to true — `new().path(p).build()` requests a read-only attachment,
`new().read_only(false).path(p).build()` a writable one — and after any
setter sequence the flag equals the last value set, defaulting to true. -/
theorem disk_read_only_default_and_last_write :
    (∀ p : String,
      (VZDiskImageStorageDeviceAttachmentBuilder.new.set_path p).buildCall =
        some (DiskBuildCall.twoArg p true)) ∧
    (∀ p : String,
      ((VZDiskImageStorageDeviceAttachmentBuilder.new.set_read_only
        false).set_path p).buildCall = some (DiskBuildCall.twoArg p false)) ∧
    (∀ (p : String) (ro : Bool) (f : NSError → NSError),
      NSError.codeVal (f NSError.nil') = 0 →
        runDiskBuildCall (DiskBuildCall.twoArg p ro) f = Except.ok
          (VZDiskImageStorageDeviceAttachment.mk
            (NSURL.fileURLWithPath p false) ro none none)) ∧
    (∀ calls : List DiskBuilderCall,
      (applyDiskBuilderCalls VZDiskImageStorageDeviceAttachmentBuilder.new
          calls).read_only = (lastReadOnlySet calls).getD true) := by
  refine ⟨fun p => rfl, fun p => rfl, fun p ro f h => ?_, fun calls => ?_⟩
  · exact (errIfShape (f NSError.nil')
      (VZDiskImageStorageDeviceAttachment.mk (NSURL.fileURLWithPath p false)
        ro none none)).2 h
  · exact applyDiskBuilderCalls_read_only calls
      VZDiskImageStorageDeviceAttachmentBuilder.new

/-- Claim C4, witness: concrete runs — default builder yields a read-only
attachment for "root.img"; setting `read_only(false)` then overriding with
`read_only(true)` then `read_only(false)` leaves the flag false. -/
theorem disk_read_only_default_and_last_write_witness :
    (VZDiskImageStorageDeviceAttachmentBuilder.new.set_path "root.img").buildCall =
        some (DiskBuildCall.twoArg "root.img" true) ∧
      (NSError.codeVal ((fun (e : NSError) => e) NSError.nil') = 0 ∧
        runDiskBuildCall (DiskBuildCall.twoArg "root.img" true) (fun e => e) =
          Except.ok (VZDiskImageStorageDeviceAttachment.mk
            (NSURL.fileURLWithPath "root.img" false) true none none)) ∧
      (applyDiskBuilderCalls VZDiskImageStorageDeviceAttachmentBuilder.new
          [DiskBuilderCall.readOnlyCall false, DiskBuilderCall.readOnlyCall true,
            DiskBuilderCall.readOnlyCall false]).read_only =
        (lastReadOnlySet [DiskBuilderCall.readOnlyCall false,
          DiskBuilderCall.readOnlyCall true,
          DiskBuilderCall.readOnlyCall false]).getD true :=
  ⟨disk_read_only_default_and_last_write.1 "root.img",
    ⟨rfl, disk_read_only_default_and_last_write.2.2.1 "root.img" true
      (fun e => e) rfl⟩,
    disk_read_only_default_and_last_write.2.2.2
      [DiskBuilderCall.readOnlyCall false, DiskBuilderCall.readOnlyCall true,
        DiskBuilderCall.readOnlyCall false]⟩

/-- Claim C7, confirmed: encoding a UTF-8 text value (list of Unicode scalar
values) into the foreign string with `NSString::new` and reading it back with
`as_str` yields the text unchanged, for every text including the empty one;
decoding the empty foreign string yields the empty text value. -/
theorem nsstring_utf8_roundtrip :
    (∀ s : List Nat, (∀ c ∈ s, Nat.isValidChar c) →
      NSString.as_str (NSString.new s) = some s) ∧
    NSString.as_str (NSString.mk []) = some [] := by
  constructor
  · intro s h
    unfold NSString.as_str NSString.new
    induction s with
    | nil =>
      rw [utf8Encode, utf8Decode]
      rfl
    | cons c cs ih =>
      rw [utf8Encode, utf8Decode_append c (h c (by simp)),
        ih (fun x hx => h x (by simp [hx]))]
      rfl
  · unfold NSString.as_str
    rw [utf8Decode]
    rfl

/-- Claim C7, witness: the round trip at the concrete text "vm…🎉"
(scalars 118, 109, 8230, 127881 — covering the one-, two-, three- and
four-byte UTF-8 ranges) and at the empty text. -/
theorem nsstring_utf8_roundtrip_witness :
    ((∀ c ∈ [118, 109, 8230, 127881], Nat.isValidChar c) ∧
      NSString.as_str (NSString.new [118, 109, 8230, 127881]) =
        some [118, 109, 8230, 127881]) ∧
    ((∀ c ∈ ([] : List Nat), Nat.isValidChar c) ∧
      NSString.as_str (NSString.new []) = some []) :=
  ⟨⟨by decide, nsstring_utf8_roundtrip.1 [118, 109, 8230, 127881] (by decide)⟩,
    ⟨by decide, nsstring_utf8_roundtrip.1 [] (by decide)⟩⟩

/-- Claim C8, confirmed: whenever the foreign `validateWithError:` call leaves
the error slot's code at zero, `validate_with_error` returns `Ok` of the
returned `BOOL` unexamined — in particular `Ok(NO)` when the call returned
`NO` — and the reference caller's `match` in `simplevm.rs` takes the proceed
branch on any `Ok`, never inspecting the boolean. -/
theorem validate_bool_passthrough_and_caller_branch :
    ∀ (c : VZVirtualMachineConfiguration) (f : NSError → Bool × NSError),
      NSError.codeVal (f NSError.nil').2 = 0 →
        c.validate_with_error f = Except.ok (f NSError.nil').1 ∧
        simplevmValidateBranch (c.validate_with_error f) = true := by
  intro c f h
  have hok := (errIfShape (f NSError.nil').2 (f NSError.nil').1).2 h
  have hok2 : c.validate_with_error f = Except.ok (f NSError.nil').1 := hok
  exact ⟨hok2, by rw [hok2]; rfl⟩

/-- Claim C8, witness: a foreign validation that answers `NO` but writes no
error — the wrapper returns `Ok false` and the reference caller proceeds as
if validation succeeded. -/
theorem validate_bool_passthrough_and_caller_branch_witness :
    NSError.codeVal ((fun (e : NSError) => (false, e)) NSError.nil').2 = 0 ∧
      VZVirtualMachineConfiguration.new.validate_with_error
        (fun e => (false, e)) = Except.ok false ∧
      simplevmValidateBranch (VZVirtualMachineConfiguration.new.validate_with_error
        (fun e => (false, e))) = true :=
  ⟨rfl,
    (validate_bool_passthrough_and_caller_branch
      VZVirtualMachineConfiguration.new (fun e => (false, e)) rfl).1,
    (validate_bool_passthrough_and_caller_branch
      VZVirtualMachineConfiguration.new (fun e => (false, e)) rfl).2⟩

/-- Claim C9, confirmed: the fallible operations initialize their error slot
to the nil `NSError`, whose `code` message answers 0; consequently, whenever
the foreign call leaves the slot nil, the code check reads 0 and the
operation reports `Ok` — the nil error object is always classified as
"no error". -/
theorem nil_error_slot_classified_as_success :
    NSError.codeVal NSError.nil' = 0 ∧
    (∀ (c : VZVirtualMachineConfiguration) (f : NSError → Bool × NSError),
      (f NSError.nil').2 = NSError.nil' →
        c.validate_with_error f = Except.ok (f NSError.nil').1) ∧
    (∀ (vm : VZVirtualMachine) (f : NSError → Bool × NSError),
      (f NSError.nil').2 = NSError.nil' →
        vm.request_stop_with_error f = Except.ok (f NSError.nil').1) ∧
    (∀ (p : String) (ro : Bool) (f : NSError → NSError),
      f NSError.nil' = NSError.nil' →
        VZDiskImageStorageDeviceAttachment.new p ro f = Except.ok
          (VZDiskImageStorageDeviceAttachment.mk
            (NSURL.fileURLWithPath p false) ro none none)) ∧
    (∀ (u : String) (o : VZEFIVariableStoreInitializationOptions)
        (f : NSError → NSError),
      f NSError.nil' = NSError.nil' →
        VZEFIVariableStore.create u o f = Except.ok
          (VZEFIVariableStore.mk (NSURL.urlWithString u) o.into_raw)) := by
  refine ⟨rfl, fun c f h => ?_, fun vm f h => ?_, fun p ro f h => ?_,
    fun u o f h => ?_⟩
  · exact (errIfShape (f NSError.nil').2 (f NSError.nil').1).2 (by rw [h]; rfl)
  · exact (errIfShape (f NSError.nil').2 (f NSError.nil').1).2 (by rw [h]; rfl)
  · exact (errIfShape (f NSError.nil')
      (VZDiskImageStorageDeviceAttachment.mk (NSURL.fileURLWithPath p false)
        ro none none)).2 (by rw [h]; rfl)
  · exact (errIfShape (f NSError.nil')
      (VZEFIVariableStore.mk (NSURL.urlWithString u) o.into_raw)).2
      (by rw [h]; rfl)

/-- Claim C9, witness: a foreign EFI-store initializer that leaves the slot
exactly as it received it (nil): creation succeeds. -/
theorem nil_error_slot_classified_as_success_witness :
    NSError.codeVal NSError.nil' = 0 ∧
      ((fun (e : NSError) => e) NSError.nil' = NSError.nil' ∧
        VZEFIVariableStore.create "efivars" (VZEFIVariableStoreInitializationOptions.mk [1])
          (fun e => e) = Except.ok
            (VZEFIVariableStore.mk (NSURL.urlWithString "efivars")
              (VZEFIVariableStoreInitializationOptions.mk [1]).into_raw)) :=
  ⟨nil_error_slot_classified_as_success.1,
    ⟨rfl, nil_error_slot_classified_as_success.2.2.2.2 "efivars"
      (VZEFIVariableStoreInitializationOptions.mk [1]) (fun e => e) rfl⟩⟩
